import Mathlib

/-!
Verification of the gitlaxy repository: a shallow embedding in Lean 4 of the
tree data model (src/types, src/utils/gitParser.ts), the layout engine
(src/utils/layout.ts and the Galaxy spiral layout), the flight controller
(the current ShipControls snapshot), the navigation store (src/store), the
solar-system orbit computation (src/components/SolarSystem.tsx) and the
proximity detector (src/hooks/useProximityDetection.ts), together with
theorems settling the specification claims.

JavaScript numbers are modelled as rationals where the source only performs
field operations and comparisons (the flight controller), and as reals where
the source uses square roots and trigonometry (layout, orbits, proximity).
Ambient calls to Math.random are modelled by an explicit stream of samples
consumed in call order.
-/

namespace Gitlaxy

/-! ## Tree data model (src/types/index.ts)

`RepoNode` is the discriminated union FileNode | FolderNode.  Fields kept:
id, name, path, extension, size for files; id, name, path, children for
folders.  (lastModified and the optional cached position are not read by any
of the functions embedded below.) -/

inductive RepoNode where
  | file (id name path extension : String) (size : Int)
  | folder (id name path : String) (children : List RepoNode)

mutual

def RepoNode.beq : RepoNode → RepoNode → Bool
  | .file i n p e s, .file i' n' p' e' s' =>
      i == i' && n == n' && p == p' && e == e' && s == s'
  | .folder i n p cs, .folder i' n' p' cs' =>
      i == i' && n == n' && p == p' && RepoNode.beqList cs cs'
  | _, _ => false

def RepoNode.beqList : List RepoNode → List RepoNode → Bool
  | [], [] => true
  | c :: cs, c' :: cs' => RepoNode.beq c c' && RepoNode.beqList cs cs'
  | _, _ => false

end

instance : BEq RepoNode := ⟨RepoNode.beq⟩

def RepoNode.path : RepoNode → String
  | .file _ _ p _ _ => p
  | .folder _ _ p _ => p

def RepoNode.id : RepoNode → String
  | .file i _ _ _ _ => i
  | .folder i _ _ _ => i

def RepoNode.isFile : RepoNode → Bool
  | .file _ _ _ _ _ => true
  | .folder _ _ _ _ => false

def RepoNode.isFolder : RepoNode → Bool
  | .file _ _ _ _ _ => false
  | .folder _ _ _ _ => true

def RepoNode.children : RepoNode → List RepoNode
  | .file _ _ _ _ _ => []
  | .folder _ _ _ cs => cs

/-! ## gitParser.ts: counting and flattening

countFiles and countFolders reduce over the children with a left fold
starting from 0 (resp. 1 + fold); the fold is embedded with an explicit
accumulator.  flattenTree returns the node followed by the concatenation of
the flattened children (flatMap). -/

mutual

def countFiles : RepoNode → Nat
  | .file _ _ _ _ _ => 1
  | .folder _ _ _ children => countFilesReduce 0 children

def countFilesReduce : Nat → List RepoNode → Nat
  | sum, [] => sum
  | sum, child :: rest => countFilesReduce (sum + countFiles child) rest

end

mutual

def countFolders : RepoNode → Nat
  | .file _ _ _ _ _ => 0
  | .folder _ _ _ children => 1 + countFoldersReduce 0 children

def countFoldersReduce : Nat → List RepoNode → Nat
  | sum, [] => sum
  | sum, child :: rest => countFoldersReduce (sum + countFolders child) rest

end

mutual

def flattenTree : RepoNode → List RepoNode
  | .file i n p e s => [.file i n p e s]
  | .folder i n p children => .folder i n p children :: flattenChildren children

def flattenChildren : List RepoNode → List RepoNode
  | [] => []
  | child :: rest => flattenTree child ++ flattenChildren rest

end

/-- getParentPath: split the path on slashes, drop empty segments; a path
with at most one segment has parent "/", otherwise rejoin all but the last
segment under a leading slash. -/
def getParentPath (path : String) : String :=
  let parts := (path.splitOn "/").filter (fun s => s ≠ "")
  if parts.length ≤ 1 then "/" else "/" ++ String.intercalate "/" (parts.dropLast)

/-- getPathDepth: the number of nonempty slash-separated segments. -/
def getPathDepth (path : String) : Nat :=
  ((path.splitOn "/").filter (fun s => s ≠ "")).length

/-! Accumulator lemmas for the reduce embeddings. -/

theorem countFilesReduce_acc (cs : List RepoNode) :
    ∀ s : Nat, countFilesReduce s cs = s + countFilesReduce 0 cs := by
  induction cs with
  | nil => intro s; simp [countFilesReduce]
  | cons c rest ih =>
      intro s
      rw [countFilesReduce, countFilesReduce, ih (s + countFiles c),
        ih (0 + countFiles c)]
      omega

theorem countFoldersReduce_acc (cs : List RepoNode) :
    ∀ s : Nat, countFoldersReduce s cs = s + countFoldersReduce 0 cs := by
  induction cs with
  | nil => intro s; simp [countFoldersReduce]
  | cons c rest ih =>
      intro s
      rw [countFoldersReduce, countFoldersReduce, ih (s + countFolders c),
        ih (0 + countFolders c)]
      omega

mutual

theorem counts_partition_flatten (n : RepoNode) :
    countFiles n + countFolders n = (flattenTree n).length := by
  cases n with
  | file i nm p e s => simp [countFiles, countFolders, flattenTree]
  | folder i nm p children =>
      have h := counts_partition_flatten_list children
      simp only [countFiles, countFolders, flattenTree, List.length_cons]
      omega

theorem counts_partition_flatten_list (cs : List RepoNode) :
    countFilesReduce 0 cs + countFoldersReduce 0 cs = (flattenChildren cs).length := by
  cases cs with
  | nil => simp [countFilesReduce, countFoldersReduce, flattenChildren]
  | cons c rest =>
      have hc := counts_partition_flatten c
      have hr := counts_partition_flatten_list rest
      rw [countFilesReduce, countFoldersReduce,
        countFilesReduce_acc rest (0 + countFiles c),
        countFoldersReduce_acc rest (0 + countFolders c)]
      simp only [flattenChildren, List.length_append]
      omega

end

/-- C10: for every tree node, countFiles(node) + countFolders(node) equals
the length of flattenTree(node): the flattened traversal lists each file and
each folder of the subtree exactly once, so the two counting functions
partition the flattened node list. -/
theorem countFiles_add_countFolders_eq_flattenTree_length (n : RepoNode) :
    countFiles n + countFolders n = (flattenTree n).length :=
  counts_partition_flatten n

/-! ## Flight controller (current ShipControls snapshot)

Embedding of the speed-management and agility portion of the per-frame
update of the No Man's Sky style ship controller, together with the
fly-mode reset effect.  The controller only uses field operations and
comparisons on its numbers, so speeds are modelled exactly as rationals.
Config values come from createFlightConfig applied to the user control
settings (src/config/controls.ts). -/

/-- ControlSettings (src/config/controls.ts): the numeric fields consumed by
createFlightConfig. -/
structure ControlSettings where
  mouseSensitivity : ℚ
  invertY : Bool
  invertX : Bool
  acceleration : ℚ
  deceleration : ℚ
  brakeForce : ℚ
  turnRate : ℚ
  rollRate : ℚ
  autoBankStrength : ℚ

/-- DEFAULT_CONTROLS (the standard preset). -/
def DEFAULT_CONTROLS : ControlSettings :=
  { mouseSensitivity := 1
    invertY := false
    invertX := false
    acceleration := 150
    deceleration := 100
    brakeForce := 300
    turnRate := 1.5
    rollRate := 2.5
    autoBankStrength := 0.4 }

/-- The flight configuration record produced by createFlightConfig (the
mouse-sensitivity product, which mixes in renderer performance constants, is
not consumed by any speed or agility computation and is left out). -/
structure FlightConfig where
  minSpeed : ℚ
  normalSpeed : ℚ
  maxSpeed : ℚ
  boostSpeed : ℚ
  acceleration : ℚ
  deceleration : ℚ
  brakeForce : ℚ
  basePitchRate : ℚ
  baseYawRate : ℚ
  rollRate : ℚ
  autoBankStrength : ℚ
  autoBankSpeed : ℚ
  agilityAtMinSpeed : ℚ
  agilityAtMaxSpeed : ℚ
  agilityAtBoost : ℚ

/-- createFlightConfig: the 5x-scale speed limits are literals; the
acceleration, braking and turn-rate values come from the control settings. -/
def createFlightConfig (controls : ControlSettings) : FlightConfig :=
  { minSpeed := -1500
    normalSpeed := 1000
    maxSpeed := 15000
    boostSpeed := 15000
    acceleration := controls.acceleration
    deceleration := controls.deceleration
    brakeForce := controls.brakeForce
    basePitchRate := controls.turnRate
    baseYawRate := controls.turnRate * 0.8
    rollRate := controls.rollRate
    autoBankStrength := controls.autoBankStrength
    autoBankSpeed := 3
    agilityAtMinSpeed := 1
    agilityAtMaxSpeed := 0.3
    agilityAtBoost := 0.15 }

/-- The key states read at the start of the frame update, plus the raw frame
delta time. -/
structure FrameInput where
  isThrusting : Bool
  isBraking : Bool
  wantsBoost : Bool
  delta : ℚ

/-- THREE.MathUtils.clamp value min max = Math.max(min, Math.min(max, value)). -/
def mathClamp (value minv maxv : ℚ) : ℚ := max minv (min maxv value)

/-- THREE.MathUtils.lerp x y t = (y - x) * t + x. -/
def lerp (x y t : ℚ) : ℚ := (y - x) * t + x

/-- The SPEED MANAGEMENT block of the frame update: dt is the delta clamped
to 0.1; boosting (boost key held while thrusting) accelerates toward
boostSpeed at triple acceleration, thrusting accelerates toward maxSpeed,
braking subtracts brakeForce·dt, no key leaves the speed untouched; then the
snap-to-zero rule (magnitude below 15 with no thrust and no brake) and the
clamp to [minSpeed, boostSpeed]. -/
def updateSpeed (cfg : FlightConfig) (inp : FrameInput) (currentSpeed : ℚ) : ℚ :=
  let dt := min inp.delta 0.1
  let isBoosting := inp.wantsBoost && inp.isThrusting
  let afterKeys :=
    if isBoosting then
      let speedDiff := cfg.boostSpeed - currentSpeed
      if 0 < speedDiff then currentSpeed + min (cfg.acceleration * 3 * dt) speedDiff
      else currentSpeed
    else if inp.isThrusting then
      if currentSpeed < cfg.maxSpeed then
        let speedDiff := cfg.maxSpeed - currentSpeed
        currentSpeed + min (cfg.acceleration * dt) speedDiff
      else currentSpeed
    else if inp.isBraking then currentSpeed - cfg.brakeForce * dt
    else currentSpeed
  let afterSnap :=
    if |afterKeys| < 15 ∧ inp.isThrusting = false ∧ inp.isBraking = false then 0
    else afterKeys
  mathClamp afterSnap cfg.minSpeed cfg.boostSpeed

/-- The AGILITY CALCULATION block: a fixed agilityAtBoost while boosting,
otherwise a lerp between the min-speed and max-speed agility driven by the
absolute speed normalised by maxSpeed and capped at 1. -/
def agilityMultiplier (cfg : FlightConfig) (isBoosting : Bool) (currentSpeed : ℚ) : ℚ :=
  if isBoosting then cfg.agilityAtBoost
  else
    let absSpeed := |currentSpeed|
    let speedNormalized := absSpeed / cfg.maxSpeed
    lerp cfg.agilityAtMinSpeed cfg.agilityAtMaxSpeed (min speedNormalized 1)

/-- Camera mode of the navigation store. -/
inductive CameraMode where
  | orbit
  | fly
deriving DecidableEq

/-- The transient flight-controller refs: speed, boost flag, the three
angular velocities, the auto-bank angle and the accumulated mouse input. -/
structure FlightTransient where
  currentSpeed : ℚ
  isBoosting : Bool
  currentYawVelocity : ℚ
  currentPitchVelocity : ℚ
  currentRollVelocity : ℚ
  autoBankAngle : ℚ
  mouseInputX : ℚ
  mouseInputY : ℚ
deriving DecidableEq

/-- The values written by the reset effect when the camera mode becomes fly:
start stationary with every velocity, the bank angle and the mouse
accumulator zeroed and boost off. -/
def flyEntryTransient : FlightTransient :=
  { currentSpeed := 0
    isBoosting := false
    currentYawVelocity := 0
    currentPitchVelocity := 0
    currentRollVelocity := 0
    autoBankAngle := 0
    mouseInputX := 0
    mouseInputY := 0 }

/-- The camera mode together with the controller transients. -/
structure ShipSimState where
  cameraMode : CameraMode
  flight : FlightTransient
deriving DecidableEq

/-- setCameraMode writes the new mode into the store; the reset effect runs
on a change of the camera mode and zeroes the flight transients when the new
mode is fly. -/
def setCameraMode (mode : CameraMode) (s : ShipSimState) : ShipSimState :=
  if mode = .fly ∧ s.cameraMode ≠ .fly then
    { cameraMode := mode, flight := flyEntryTransient }
  else
    { cameraMode := mode, flight := s.flight }

/-! Claim theorems for the flight controller. -/

/-- C1: whenever no thrust, brake, or boost input is held, the speed is held
constant across the tick (no cruise decay), except that if the magnitude of
the speed is below the epsilon threshold 15 the speed after the tick is
exactly 0.  The speed is assumed inside [minSpeed, boostSpeed], the range
every reachable controller speed lies in. -/
theorem idle_tick_holds_speed_or_snaps_to_zero
    (ctl : ControlSettings) (inp : FrameInput) (s : ℚ)
    (ht : inp.isThrusting = false) (hb : inp.isBraking = false)
    (hw : inp.wantsBoost = false)
    (hlo : (createFlightConfig ctl).minSpeed ≤ s)
    (hhi : s ≤ (createFlightConfig ctl).boostSpeed) :
    updateSpeed (createFlightConfig ctl) inp s = if |s| < 15 then 0 else s := by
  have hmin : (createFlightConfig ctl).minSpeed = -1500 := rfl
  have hmax : (createFlightConfig ctl).boostSpeed = 15000 := rfl
  rw [hmin] at hlo
  rw [hmax] at hhi
  simp only [updateSpeed, ht, hb, hw, Bool.false_and, Bool.and_false,
    if_false, Bool.false_eq_true, and_true, mathClamp, hmin, hmax]
  by_cases hs : |s| < 15
  · rw [if_pos hs]
    norm_num
  · rw [if_neg hs]
    rw [min_eq_right hhi, max_eq_right hlo]

/-- Witness for C1 at the default controls, an idle frame of 1/60 s and a
small drifting speed 7, which snaps to exactly 0. -/
theorem idle_tick_holds_speed_or_snaps_to_zero_witness :
    updateSpeed (createFlightConfig DEFAULT_CONTROLS)
      { isThrusting := false, isBraking := false, wantsBoost := false, delta := 1/60 }
      7 = 0 := by
  rw [idle_tick_holds_speed_or_snaps_to_zero DEFAULT_CONTROLS _ 7 rfl rfl rfl
    (by norm_num [createFlightConfig]) (by norm_num [createFlightConfig])]
  norm_num

/-- Every single tick lands the speed in [minSpeed, boostSpeed], whatever the
input and the starting speed: the update ends in the clamp. -/
theorem updateSpeed_mem_range (cfg : FlightConfig)
    (h : cfg.minSpeed ≤ cfg.boostSpeed) (inp : FrameInput) (s : ℚ) :
    cfg.minSpeed ≤ updateSpeed cfg inp s ∧ updateSpeed cfg inp s ≤ cfg.boostSpeed := by
  unfold updateSpeed mathClamp
  constructor
  · exact le_max_left _ _
  · exact max_le h (min_le_left _ _)

/-- C3: for every sequence of per-tick thrust/brake/boost inputs of arbitrary
length, starting from any speed inside the range, the speed lies within
[minSpeed, boostSpeed] after every tick (the trace is the scan of the speed
update over the inputs; minSpeed is the negative reverse limit -1500). -/
theorem speed_stays_in_range
    (ctl : ControlSettings) (s0 : ℚ) (inputs : List FrameInput)
    (h0 : (createFlightConfig ctl).minSpeed ≤ s0 ∧
          s0 ≤ (createFlightConfig ctl).boostSpeed) :
    ∀ s ∈ List.scanl (fun sp inp => updateSpeed (createFlightConfig ctl) inp sp)
        s0 inputs,
      (createFlightConfig ctl).minSpeed ≤ s ∧ s ≤ (createFlightConfig ctl).boostSpeed := by
  have hrange : (createFlightConfig ctl).minSpeed ≤ (createFlightConfig ctl).boostSpeed := by
    norm_num [createFlightConfig]
  induction inputs generalizing s0 with
  | nil =>
      intro s hs
      rw [List.scanl_nil, List.mem_singleton] at hs
      rwa [hs]
  | cons inp rest ih =>
      intro s hs
      rw [List.scanl_cons] at hs
      rcases List.mem_cons.mp hs with rfl | hmem
      · exact h0
      · exact ih (updateSpeed (createFlightConfig ctl) inp s0)
          (updateSpeed_mem_range (createFlightConfig ctl) hrange inp s0) s hmem

/-- Witness for C3: a boost tick followed by a brake tick from speed 0 keeps
every speed of the trace inside [-1500, 15000]. -/
theorem speed_stays_in_range_witness :
    (createFlightConfig DEFAULT_CONTROLS).minSpeed ≤
        updateSpeed (createFlightConfig DEFAULT_CONTROLS)
          { isThrusting := true, isBraking := false, wantsBoost := true, delta := 1/30 } 0 ∧
      updateSpeed (createFlightConfig DEFAULT_CONTROLS)
          { isThrusting := true, isBraking := false, wantsBoost := true, delta := 1/30 } 0 ≤
        (createFlightConfig DEFAULT_CONTROLS).boostSpeed := by
  refine speed_stays_in_range DEFAULT_CONTROLS 0
    [{ isThrusting := true, isBraking := false, wantsBoost := true, delta := 1/30 }]
    (by constructor <;> norm_num [createFlightConfig]) _ ?_
  simp [List.scanl]

/-- C7: the turn-agility multiplier equals the fixed constant agilityAtBoost
whenever the ship is boosting, regardless of speed, and otherwise equals the
affine interpolation between agilityAtMinSpeed and agilityAtMaxSpeed at
parameter min(|speed|/maxSpeed, 1). -/
theorem agility_lerp_of_speed (cfg : FlightConfig) (s : ℚ) :
    agilityMultiplier cfg true s = cfg.agilityAtBoost ∧
    agilityMultiplier cfg false s =
      cfg.agilityAtMinSpeed * (1 - min (|s| / cfg.maxSpeed) 1) +
        cfg.agilityAtMaxSpeed * min (|s| / cfg.maxSpeed) 1 := by
  constructor
  · simp [agilityMultiplier]
  · simp only [agilityMultiplier, lerp, Bool.false_eq_true, if_false]
    ring

/-- C2: switching the camera mode into fly resets every flight-controller
transient to the stationary baseline (speed exactly 0, boost off, all
velocities, the bank angle and the mouse accumulator 0), regardless of the
state before; in particular entering fly, switching to orbit, and re-entering
fly leaves all flight fields at that baseline. -/
theorem enter_fly_resets_flight_transients (s : ShipSimState) :
    (s.cameraMode ≠ .fly → (setCameraMode .fly s).flight = flyEntryTransient) ∧
    (setCameraMode .fly (setCameraMode .orbit (setCameraMode .fly s))).flight
      = flyEntryTransient ∧
    flyEntryTransient.currentSpeed = 0 ∧
    flyEntryTransient.isBoosting = false ∧
    flyEntryTransient.currentYawVelocity = 0 ∧
    flyEntryTransient.currentPitchVelocity = 0 ∧
    flyEntryTransient.currentRollVelocity = 0 ∧
    flyEntryTransient.autoBankAngle = 0 ∧
    flyEntryTransient.mouseInputX = 0 ∧
    flyEntryTransient.mouseInputY = 0 := by
  refine ⟨?_, ?_, rfl, rfl, rfl, rfl, rfl, rfl, rfl, rfl⟩
  · intro h
    simp [setCameraMode, h]
  · simp [setCameraMode]

/-- Witness for C2: entering fly from an orbit-mode state with junk flight
transients lands exactly on the stationary baseline. -/
theorem enter_fly_resets_flight_transients_witness :
    (setCameraMode .fly
        { cameraMode := .orbit,
          flight :=
            { currentSpeed := 4321
              isBoosting := true
              currentYawVelocity := 3
              currentPitchVelocity := -2
              currentRollVelocity := 1
              autoBankAngle := 0.5
              mouseInputX := 17
              mouseInputY := -9 } }).flight = flyEntryTransient :=
  (enter_fly_resets_flight_transients _).1 (by decide)

/-! ## Navigation store (src/store: viewLevel / currentSystem actions)

enterSystem and exitSystem write the store unconditionally: enterSystem sets
viewLevel to system and both currentSystem and selectedNode to the given
folder; exitSystem sets viewLevel to galaxy and clears currentSystem. -/

inductive ViewLevel where
  | galaxy
  | system
deriving DecidableEq

/-- The navigation-relevant slice of the store. -/
structure NavState where
  viewLevel : ViewLevel
  currentSystem : Option RepoNode
  selectedNode : Option RepoNode

/-- The initial store: galaxy level, no current system, no selection. -/
def initialNavState : NavState :=
  { viewLevel := .galaxy, currentSystem := none, selectedNode := none }

/-- enterSystem(folder). -/
def enterSystem (folder : RepoNode) (s : NavState) : NavState :=
  { s with viewLevel := .system, currentSystem := some folder, selectedNode := some folder }

/-- exitSystem(). -/
def exitSystem (s : NavState) : NavState :=
  { s with viewLevel := .galaxy, currentSystem := none }

/-- The navigation actions reachable states are built from. -/
inductive NavAction where
  | enter (folder : RepoNode)
  | exit

/-- One store action. -/
def navStep (s : NavState) (a : NavAction) : NavState :=
  match a with
  | .enter folder => enterSystem folder s
  | .exit => exitSystem s

/-- The store after a sequence of navigation actions from the initial state. -/
def navRun (acts : List NavAction) : NavState :=
  acts.foldl navStep initialNavState

/-- Galaxy level never carries a current system, for any action suffix from
an invariant-satisfying state. -/
theorem navFold_galaxy_no_system (acts : List NavAction) :
    ∀ s : NavState,
      (s.viewLevel = .galaxy → s.currentSystem = none) →
      ((acts.foldl navStep s).viewLevel = .galaxy →
        (acts.foldl navStep s).currentSystem = none) := by
  induction acts with
  | nil => intro s h; exact h
  | cons a rest ih =>
      intro s h
      rw [List.foldl_cons]
      refine ih (navStep s a) ?_
      cases a with
      | enter folder =>
          intro hg
          simp [navStep, enterSystem] at hg
      | exit =>
          intro _
          simp [navStep, exitSystem]

/-- Concrete folders for the navigation scenarios. -/
def srcFolderNode : RepoNode := .folder "/src" "src" "/src" []

def publicFolderNode : RepoNode := .folder "/public" "public" "/public" []

/-- C5 counterexample: selecting another folder while already at system level
is not ignored — the store re-targets currentSystem, so the state changes. -/
theorem enterSystem_at_system_level_not_noop :
    (enterSystem srcFolderNode initialNavState).viewLevel = .system ∧
    enterSystem publicFolderNode (enterSystem srcFolderNode initialNavState) ≠
      enterSystem srcFolderNode initialNavState := by
  refine ⟨rfl, ?_⟩
  intro h
  have hcs := congrArg NavState.currentSystem h
  simp only [enterSystem, initialNavState] at hcs
  have hfold := Option.some.inj hcs
  have hpath := congrArg RepoNode.path hfold
  simp [publicFolderNode, srcFolderNode, RepoNode.path] at hpath

/-- C5 as amended: calling enterSystem while already at system level is not a
no-op: it stays at system level but re-targets currentSystem (and the
selection) to the new folder; calling exitSystem in any reachable
galaxy-level state leaves the state unchanged, and neither action throws. -/
theorem nav_transitions_amended (acts : List NavAction) (f : RepoNode) :
    (enterSystem f (navRun acts)).viewLevel = .system ∧
    (enterSystem f (navRun acts)).currentSystem = some f ∧
    ((navRun acts).viewLevel = .galaxy → exitSystem (navRun acts) = navRun acts) := by
  refine ⟨rfl, rfl, ?_⟩
  intro hg
  have hnone : (navRun acts).currentSystem = none := by
    refine navFold_galaxy_no_system acts initialNavState ?_ hg
    intro _; rfl
  cases h : navRun acts with
  | mk vl cs sel =>
      rw [h] at hg hnone
      simp only at hg hnone
      simp [exitSystem, hg, hnone]

/-- Witness for C5 as amended: after entering and exiting the src system the
store is back at galaxy level and a further exitSystem leaves it unchanged. -/
theorem nav_transitions_amended_witness :
    exitSystem (navRun [NavAction.enter srcFolderNode, NavAction.exit]) =
      navRun [NavAction.enter srcFolderNode, NavAction.exit] :=
  (nav_transitions_amended [NavAction.enter srcFolderNode, NavAction.exit]
    srcFolderNode).2.2 rfl

/-! ## Galaxy spiral layout (Galaxy component, layoutAllSystems) and the
solar-system orbit computation (SolarSystem.tsx)

These use trigonometry, so coordinates are modelled as reals. -/

mutual

/-- countDescendants (SolarSystem.tsx): the child count plus the recursive
descendant counts of the folder children. -/
def countDescendants : RepoNode → Nat
  | .file _ _ _ _ _ => 0
  | .folder _ _ _ children => countDescendantsReduce children.length children

def countDescendantsReduce : Nat → List RepoNode → Nat
  | count, [] => count
  | count, .folder i n p cs :: rest =>
      countDescendantsReduce (count + countDescendants (.folder i n p cs)) rest
  | count, .file _ _ _ _ _ :: rest => countDescendantsReduce count rest

end

/-- The per-folder layout record {folder, position, depth, totalChildren,
parentPath} produced by layoutAllSystems. -/
structure SystemData where
  folder : RepoNode
  position : ℝ × ℝ × ℝ
  depth : Nat
  totalChildren : Nat
  parentPath : String

/-- Spacing constants of layoutAllSystems. -/
def BASE_SPACING : ℝ := 3000

def DEPTH_SPACING : ℝ := 2000

/-- The number of folder children (the sibling count seen by the spiral
placement). -/
def numFolderChildren (cs : List RepoNode) : Nat :=
  (cs.filter RepoNode.isFolder).length

/-- collectFolders: walk the children in order keeping the folder index;
each folder child gets a spiral-arm position (angle from the sibling index
plus a depth-dependent skew, radius growing with depth, vertical offset a
combination of phase-shifted sinusoids of the sibling index and depth) and
its subtree is processed recursively from the new angle and radius. -/
noncomputable def collectFolders
    (numSiblings index depth : Nat) (parentAngle parentRadius : ℝ)
    (parentPath : String) : List RepoNode → List SystemData
  | [] => []
  | .file _ _ _ _ _ :: rest =>
      collectFolders numSiblings index depth parentAngle parentRadius parentPath rest
  | .folder i n p cs :: rest =>
      let armAngle := parentAngle +
        ((index : ℝ) / ((max numSiblings 1 : Nat) : ℝ)) * Real.pi * 2
      let spiralOffset := (depth : ℝ) * 0.4
      let radius := parentRadius + BASE_SPACING + (depth : ℝ) * DEPTH_SPACING
      let angle := armAngle + spiralOffset
      let baseVertical := 3000 + (depth : ℝ) * 1500
      let indexVariation :=
        Real.sin ((index : ℝ) * 2.7 + (depth : ℝ) * 1.3) + Real.cos ((index : ℝ) * 1.9)
      let depthVariation := Real.cos ((depth : ℝ) * 0.8 + (index : ℝ) * 0.5)
      let y := indexVariation * baseVertical * 0.5 + depthVariation * baseVertical * 0.3
      let x := Real.cos angle * radius + (Real.sin ((index : ℝ) * 2.1) * 0.3 - 0.15) * 800
      let z := Real.sin angle * radius + (Real.cos ((index : ℝ) * 1.7) * 0.3 - 0.15) * 800
      { folder := .folder i n p cs, position := (x, y, z), depth := depth,
        totalChildren := countDescendants (.folder i n p cs), parentPath := parentPath } ::
        (collectFolders (numFolderChildren cs) 0 (depth + 1) angle radius p cs ++
          collectFolders numSiblings (index + 1) depth parentAngle parentRadius parentPath rest)

/-- layoutAllSystems: collect every folder below the root, starting with the
top-level folders at depth 0, angle 0 and radius 0. -/
noncomputable def layoutAllSystems (root : RepoNode) : List SystemData :=
  collectFolders (numFolderChildren root.children) 0 0 0 0 root.path root.children

/-- The star visual properties selected by depth, child count and descendant
count (getStarProperties in SolarSystem.tsx). -/
structure StarProperties where
  color : String
  coronaColor : String
  size : ℝ
  intensity : ℝ

noncomputable def getStarProperties (depth childCount totalDescendants : Nat) :
    StarProperties :=
  if depth = 0 ∧ totalDescendants > 10 then
    { color := "#8bb4ff", coronaColor := "#aaccff",
      size := 120 + min ((totalDescendants : ℝ) * 2) 100, intensity := 4 }
  else if depth = 0 then
    { color := "#b4c7ff", coronaColor := "#ccdeff",
      size := 80 + min ((childCount : ℝ) * 5) 60, intensity := 3 }
  else if depth = 1 ∧ childCount > 5 then
    { color := "#fff4e0", coronaColor := "#ffeecc",
      size := 60 + min ((childCount : ℝ) * 4) 50, intensity := 2.5 }
  else if depth = 1 then
    { color := "#ffee88", coronaColor := "#ffdd66",
      size := 45 + min ((childCount : ℝ) * 3) 35, intensity := 2 }
  else if depth = 2 then
    { color := "#ffaa55", coronaColor := "#ff9944",
      size := 35 + min ((childCount : ℝ) * 2) 25, intensity := 1.5 }
  else
    { color := "#ff6644", coronaColor := "#ff5533",
      size := 25 + min ((childCount : ℝ) * 1.5) 15, intensity := 1 }

/-- A file orbit descriptor {orbitRadius, orbitSpeed, startAngle}. -/
structure OrbitData where
  file : RepoNode
  orbitRadius : ℝ
  orbitSpeed : ℝ
  startAngle : ℝ

/-- The orbits memo of SolarSystem: one descriptor per file child, with
radius sunSize·2.5 + (index+1)·100, angular speed 0.02/(index+1) and a
start angle spread over the circle. -/
noncomputable def computeOrbits (folder : RepoNode) (depth totalChildren : Nat) :
    List OrbitData :=
  let files := folder.children.filter RepoNode.isFile
  let sunSize := (getStarProperties depth folder.children.length totalChildren).size
  files.enum.map fun p =>
    { file := p.2
      orbitRadius := sunSize * 2.5 + ((p.1 : ℝ) + 1) * 100
      orbitSpeed := 0.02 / ((p.1 : ℝ) + 1)
      startAngle := ((p.1 : ℝ) / ((max files.length 1 : Nat) : ℝ)) * Real.pi * 2 +
        (p.1 : ℝ) * 0.3 }

/-! Concrete scenario: a root "/" with one folder "src" holding 3 files. -/

def demoFileA : RepoNode := .file "/src/main.tsx" "main.tsx" "/src/main.tsx" "tsx" 300

def demoFileB : RepoNode := .file "/src/App.tsx" "App.tsx" "/src/App.tsx" "tsx" 800

def demoFileC : RepoNode := .file "/src/index.css" "index.css" "/src/index.css" "css" 600

def demoSrcFolder : RepoNode := .folder "/src" "src" "/src" [demoFileA, demoFileB, demoFileC]

def demoRootNode : RepoNode := .folder "/" "gitlaxy" "/" [demoSrcFolder]

/-- C8: for the tree whose root "/" contains one folder "src" holding 3
files, the layout produces exactly one folder position (for src) and exactly
3 file orbit descriptors whose orbitRadius values are strictly increasing
with the file index, of the form sunSize·2.5 + (index+1)·100, with angular
speed 0.02/(index+1) decreasing with the index. -/
theorem one_folder_three_increasing_orbits :
    (layoutAllSystems demoRootNode).length = 1 ∧
    (layoutAllSystems demoRootNode).map SystemData.folder = [demoSrcFolder] ∧
    countDescendants demoSrcFolder = 3 ∧
    (computeOrbits demoSrcFolder 0 3).length = 3 ∧
    (computeOrbits demoSrcFolder 0 3).map OrbitData.orbitRadius =
      [(getStarProperties 0 3 3).size * 2.5 + 1 * 100,
       (getStarProperties 0 3 3).size * 2.5 + 2 * 100,
       (getStarProperties 0 3 3).size * 2.5 + 3 * 100] ∧
    (getStarProperties 0 3 3).size * 2.5 + 1 * 100 <
      (getStarProperties 0 3 3).size * 2.5 + 2 * 100 ∧
    (getStarProperties 0 3 3).size * 2.5 + 2 * 100 <
      (getStarProperties 0 3 3).size * 2.5 + 3 * 100 ∧
    (computeOrbits demoSrcFolder 0 3).map OrbitData.orbitSpeed =
      [0.02 / 1, 0.02 / 2, 0.02 / 3] ∧
    (0.02 / 2 : ℝ) < 0.02 / 1 ∧ (0.02 / 3 : ℝ) < 0.02 / 2 := by
  refine ⟨?_, ?_, ?_, ?_, ?_, by norm_num, by norm_num, ?_, by norm_num, by norm_num⟩
  · simp [layoutAllSystems, collectFolders, numFolderChildren, demoRootNode,
      demoSrcFolder, demoFileA, demoFileB, demoFileC, RepoNode.children,
      RepoNode.isFolder]
  · simp [layoutAllSystems, collectFolders, numFolderChildren, demoRootNode,
      demoSrcFolder, demoFileA, demoFileB, demoFileC, RepoNode.children,
      RepoNode.isFolder]
  · simp [countDescendants, countDescendantsReduce, demoSrcFolder,
      demoFileA, demoFileB, demoFileC]
  · simp [computeOrbits, demoSrcFolder, demoFileA, demoFileB, demoFileC,
      RepoNode.children, RepoNode.isFile, List.enum]
  · simp [computeOrbits, demoSrcFolder, demoFileA, demoFileB, demoFileC,
      RepoNode.children, RepoNode.isFile, List.enum]
    norm_num
  · simp [computeOrbits, demoSrcFolder, demoFileA, demoFileB, demoFileC,
      RepoNode.children, RepoNode.isFile, List.enum]
    norm_num

/-! ## Force-directed layout initialisation (src/utils/layout.ts)

initializeLayoutNodes positions every node of the flattened tree on a spiral
heuristic and adds jitter drawn from Math.random.  The ambient random source
is modelled as a stream rand : Nat → Real consumed in call order: the k-th
node draws rand (3k), rand (3k+1), rand (3k+2) for its x, y, z jitter. -/

/-- The LayoutNode record of layout.ts. -/
structure LayoutNode where
  id : String
  x : ℝ
  y : ℝ
  z : ℝ
  vx : ℝ
  vy : ℝ
  vz : ℝ
  node : RepoNode
  parentId : Option String

/-- ForceLayoutOptions. -/
structure ForceLayoutOptions where
  repulsionStrength : ℝ
  attractionStrength : ℝ
  centeringForce : ℝ
  damping : ℝ
  initialSpread : ℝ
  layerSpacing : ℝ
  maxIterations : Nat

/-- DEFAULT_OPTIONS of layout.ts. -/
def DEFAULT_OPTIONS : ForceLayoutOptions :=
  { repulsionStrength := 15000
    attractionStrength := 0.015
    centeringForce := 0.002
    damping := 0.8
    initialSpread := 200
    layerSpacing := 100
    maxIterations := 250 }

/-- The body of the positioning loop of initializeLayoutNodes for the k-th
node of the flattened list: sibling group and index from the parent-path
grouping, spiral angle/radius from depth and sibling index, spherical
placement plus random jitter, zero initial velocity and the effective parent
id. -/
noncomputable def initLayoutNode (allNodes : List RepoNode) (rand : Nat → ℝ)
    (k : Nat) (node : RepoNode) : LayoutNode :=
  let depth := getPathDepth node.path
  let parentPath := getParentPath node.path
  let siblings := allNodes.filter (fun m => getParentPath m.path == parentPath)
  let siblingIndex := siblings.indexOf node
  let siblingCount := siblings.length
  let armAngle := ((siblingIndex : ℝ) / ((max siblingCount 1 : Nat) : ℝ)) * Real.pi * 2
  let spiralOffset := (depth : ℝ) * 0.3
  let baseRadius := DEFAULT_OPTIONS.initialSpread * ((depth : ℝ) + 0.3)
  let spiralRadius := baseRadius + spiralOffset * 50
  let phi := armAngle + spiralOffset
  let theta := Real.pi / 2.5 + ((depth : ℝ) / 8) * Real.pi / 3
  let jitter : ℝ := 60
  let x := spiralRadius * Real.sin theta * Real.cos phi + (rand (3 * k) - 0.5) * jitter
  let y := (depth : ℝ) * DEFAULT_OPTIONS.layerSpacing + (rand (3 * k + 1) - 0.5) * jitter * 0.3
  let z := spiralRadius * Real.sin theta * Real.sin phi + (rand (3 * k + 2) - 0.5) * jitter
  let effectiveParentId : Option String :=
    if node.path = "/" then none else some (if parentPath = "/" then "/" else parentPath)
  { id := node.id, x := x, y := y, z := z, vx := 0, vy := 0, vz := 0,
    node := node, parentId := effectiveParentId }

/-- initializeLayoutNodes: flatten the tree and position every node in
order, consuming the random stream. -/
noncomputable def initializeLayoutNodes (root : RepoNode) (rand : Nat → ℝ) :
    List LayoutNode :=
  let allNodes := flattenTree root
  allNodes.enum.map (fun p => initLayoutNode allNodes rand p.1 p.2)

/-- The coordinate differences of two layout runs at index k (none past the
end). -/
noncomputable def coordDiffs (l1 l2 : List LayoutNode) (k : Nat) :
    Option (ℝ × ℝ × ℝ) :=
  match l1[k]?, l2[k]? with
  | some a, some b => some (a.x - b.x, a.y - b.y, a.z - b.z)
  | _, _ => none

theorem initLayoutNode_sub (allNodes : List RepoNode) (rand1 rand2 : Nat → ℝ)
    (k : Nat) (node : RepoNode) :
    (initLayoutNode allNodes rand1 k node).x - (initLayoutNode allNodes rand2 k node).x
        = 60 * (rand1 (3 * k) - rand2 (3 * k)) ∧
      (initLayoutNode allNodes rand1 k node).y - (initLayoutNode allNodes rand2 k node).y
        = 18 * (rand1 (3 * k + 1) - rand2 (3 * k + 1)) ∧
      (initLayoutNode allNodes rand1 k node).z - (initLayoutNode allNodes rand2 k node).z
        = 60 * (rand1 (3 * k + 2) - rand2 (3 * k + 2)) := by
  refine ⟨?_, ?_, ?_⟩ <;> (simp only [initLayoutNode]; ring)

/-- C4 counterexample input: the single-node tree rooted at "/". -/
def soloRootNode : RepoNode := .folder "/" "gitlaxy" "/" []

/-- C4 counterexample: two runs of the layout on the same unchanged tree with
different ambient random draws produce different positions, so the initial
placement is not independent of the ambient randomness. -/
theorem initializeLayoutNodes_depends_on_ambient_random :
    initializeLayoutNodes soloRootNode (fun _ => 0) ≠
      initializeLayoutNodes soloRootNode (fun _ => 1) := by
  intro h
  have h0 : (initializeLayoutNodes soloRootNode (fun _ => 0))[0]? =
      some (initLayoutNode (flattenTree soloRootNode) (fun _ => 0) 0
        (RepoNode.folder "/" "gitlaxy" "/" [])) := by
    simp [initializeLayoutNodes, soloRootNode, flattenTree, flattenChildren,
      List.enum]
  have h1 : (initializeLayoutNodes soloRootNode (fun _ => 1))[0]? =
      some (initLayoutNode (flattenTree soloRootNode) (fun _ => 1) 0
        (RepoNode.folder "/" "gitlaxy" "/" [])) := by
    simp [initializeLayoutNodes, soloRootNode, flattenTree, flattenChildren,
      List.enum]
  rw [h] at h0
  rw [h1] at h0
  have hx := congrArg (fun a => LayoutNode.x a) (Option.some.inj h0)
  have hdiff := (initLayoutNode_sub (flattenTree soloRootNode)
    (fun _ => 1) (fun _ => 0) 0 (RepoNode.folder "/" "gitlaxy" "/" [])).1
  simp only at hx
  rw [hx] at hdiff
  norm_num at hdiff

/-- C4 as amended: the initial placement is a deterministic function of the
tree structure and the sampled jitter: two runs on the same unchanged tree
have the same length and carry the same nodes in the same order, and the
coordinates of the k-th layout node differ between the runs by exactly the
jitter terms 60·Δrand(3k), 18·Δrand(3k+1), 60·Δrand(3k+2); in particular
identical random samples give bit-identical output. -/
theorem layout_deterministic_up_to_jitter (root : RepoNode)
    (rand1 rand2 : Nat → ℝ) :
    (initializeLayoutNodes root rand1).length = (initializeLayoutNodes root rand2).length ∧
    (initializeLayoutNodes root rand1).map LayoutNode.node =
      (initializeLayoutNodes root rand2).map LayoutNode.node ∧
    ∀ k : Nat, k < (flattenTree root).length →
      coordDiffs (initializeLayoutNodes root rand1) (initializeLayoutNodes root rand2) k =
        some (60 * (rand1 (3 * k) - rand2 (3 * k)),
              18 * (rand1 (3 * k + 1) - rand2 (3 * k + 1)),
              60 * (rand1 (3 * k + 2) - rand2 (3 * k + 2))) := by
  refine ⟨by simp [initializeLayoutNodes], ?_, ?_⟩
  · have hmap : ∀ r : Nat → ℝ, (initializeLayoutNodes root r).map LayoutNode.node =
        (flattenTree root).enum.map (fun p => p.2) := by
      intro r
      simp only [initializeLayoutNodes, List.map_map]
      rfl
    rw [hmap rand1, hmap rand2]
  · intro k hk
    have hgetElem : ∀ r : Nat → ℝ, (initializeLayoutNodes root r)[k]? =
        some (initLayoutNode (flattenTree root) r k ((flattenTree root).get ⟨k, hk⟩)) := by
      intro r
      simp [initializeLayoutNodes, List.getElem?_enum, List.getElem?_eq_getElem hk,
        List.get_eq_getElem]
    rw [coordDiffs, hgetElem rand1, hgetElem rand2]
    have hdiff := initLayoutNode_sub (flattenTree root) rand1 rand2 k
      ((flattenTree root).get ⟨k, hk⟩)
    dsimp only
    rw [hdiff.1, hdiff.2.1, hdiff.2.2]

/-- Witness for C4 as amended at the single-node tree and the constant
streams 0 and 1: index 0 is in range and the x, y, z differences are exactly
-60, -18, -60. -/
theorem layout_deterministic_up_to_jitter_witness :
    0 < (flattenTree soloRootNode).length ∧
    coordDiffs (initializeLayoutNodes soloRootNode (fun _ => 0))
        (initializeLayoutNodes soloRootNode (fun _ => 1)) 0 =
      some (60 * ((0 : ℝ) - 1), 18 * ((0 : ℝ) - 1), 60 * ((0 : ℝ) - 1)) := by
  constructor
  · simp [soloRootNode, flattenTree, flattenChildren]
  · exact (layout_deterministic_up_to_jitter soloRootNode (fun _ => 0) (fun _ => 1)).2.2 0
      (by simp [soloRootNode, flattenTree, flattenChildren])

/-! ## Force-directed relaxation (runForceSimulation in src/utils/layout.ts) -/

/-- A force vector {fx, fy, fz}. -/
structure Force3 where
  fx : ℝ
  fy : ℝ
  fz : ℝ

instance : Add Force3 := ⟨fun a b => ⟨a.fx + b.fx, a.fy + b.fy, a.fz + b.fz⟩⟩

/-- calculateRepulsion: inverse-square repulsion along the separation
direction, with the distance floored at 50 for the magnitude (the JS
`Math.sqrt(distSq) || 1` guard replaces a zero distance by 1 before
dividing). -/
noncomputable def calculateRepulsion (node1 node2 : LayoutNode) (strength : ℝ) :
    Force3 :=
  let dx := node1.x - node2.x
  let dy := node1.y - node2.y
  let dz := node1.z - node2.z
  let distSq := dx * dx + dy * dy + dz * dz
  let dist := if Real.sqrt distSq = 0 then 1 else Real.sqrt distSq
  let minDist : ℝ := 50
  let effectiveDist := max dist minDist
  let force := strength / (effectiveDist * effectiveDist)
  ⟨dx / dist * force, dy / dist * force, dz / dist * force⟩

/-- calculateAttraction: spring force toward the parent targeting the ideal
separation distance. -/
noncomputable def calculateAttraction (child parent : LayoutNode) (strength : ℝ)
    (idealDistance : ℝ) : Force3 :=
  let dx := parent.x - child.x
  let dy := parent.y - child.y
  let dz := parent.z - child.z
  let d0 := Real.sqrt (dx * dx + dy * dy + dz * dz)
  let dist := if d0 = 0 then 1 else d0
  let displacement := dist - idealDistance
  let force := displacement * strength
  ⟨dx / dist * force, dy / dist * force, dz / dist * force⟩

/-- One iteration of the simulation loop: every node accumulates repulsion
from all other nodes (by index), a spring attraction toward its parent when
it exists (ideal distance 180 for folder nodes, 120 for files), and a weak
horizontal centering force; velocities are damped, then positions advance by
the velocities. -/
noncomputable def simStep (opts : ForceLayoutOptions) (nodes : List LayoutNode) :
    List LayoutNode :=
  let withVelocities := nodes.enum.map (fun p =>
    let i := p.1
    let node := p.2
    let repulsion := nodes.enum.foldl (fun acc q =>
      if q.1 ≠ i then acc + calculateRepulsion node q.2 opts.repulsionStrength
      else acc) (⟨0, 0, 0⟩ : Force3)
    let withAttraction :=
      match node.parentId with
      | some pid =>
          match nodes.find? (fun (n : LayoutNode) => n.id == pid) with
          | some parent =>
              let idealDist : ℝ := if node.node.isFolder then 180 else 120
              repulsion + calculateAttraction node parent opts.attractionStrength idealDist
          | none => repulsion
      | none => repulsion
    let fx := withAttraction.fx - node.x * opts.centeringForce
    let fz := withAttraction.fz - node.z * opts.centeringForce
    { node with
        vx := (node.vx + fx) * opts.damping
        vy := (node.vy + withAttraction.fy) * opts.damping
        vz := (node.vz + fz) * opts.damping })
  withVelocities.map (fun node =>
    { node with x := node.x + node.vx, y := node.y + node.vy, z := node.z + node.vz })

/-- The convergence measure: the sum over all nodes of the absolute velocity
components. -/
noncomputable def totalVelocity (nodes : List LayoutNode) : ℝ :=
  nodes.foldl (fun sum n => sum + |n.vx| + |n.vy| + |n.vz|) 0

/-- The iteration loop of runForceSimulation with an explicit fuel (the
remaining iteration budget): each round steps the simulation once and stops
when the total velocity drops below 1; the second component counts the
iterations performed. -/
noncomputable def runForceSimulationAux (opts : ForceLayoutOptions) :
    Nat → List LayoutNode → List LayoutNode × Nat
  | 0, nodes => (nodes, 0)
  | fuel + 1, nodes =>
      let next := simStep opts nodes
      if totalVelocity next < 1 then (next, 1)
      else
        let r := runForceSimulationAux opts fuel next
        (r.1, r.2 + 1)

/-- runForceSimulation: iterate up to maxIterations times (the source clones
the node array first; the embedding is pure, so cloning is the identity). -/
noncomputable def runForceSimulation (opts : ForceLayoutOptions)
    (nodes : List LayoutNode) : List LayoutNode :=
  (runForceSimulationAux opts opts.maxIterations nodes).1

/-- The number of iterations runForceSimulation performs. -/
noncomputable def runForceSimulationSteps (opts : ForceLayoutOptions)
    (nodes : List LayoutNode) : Nat :=
  (runForceSimulationAux opts opts.maxIterations nodes).2

theorem runForceSimulationAux_le (opts : ForceLayoutOptions) :
    ∀ (fuel : Nat) (nodes : List LayoutNode),
      (runForceSimulationAux opts fuel nodes).2 ≤ fuel := by
  intro fuel
  induction fuel with
  | zero => intro nodes; simp [runForceSimulationAux]
  | succ n ih =>
      intro nodes
      rw [runForceSimulationAux]
      split
      · simp
      · simpa using Nat.succ_le_succ (ih (simStep opts nodes))

/-- C9: the relaxation always terminates — for every finite node list it
performs at most maxIterations iterations, and it stops after a single
iteration as soon as the summed velocity magnitude falls below the
threshold 1. -/
theorem runForceSimulation_terminates (opts : ForceLayoutOptions)
    (nodes : List LayoutNode) :
    runForceSimulationSteps opts nodes ≤ opts.maxIterations ∧
    (1 ≤ opts.maxIterations → totalVelocity (simStep opts nodes) < 1 →
      runForceSimulationSteps opts nodes = 1) := by
  constructor
  · exact runForceSimulationAux_le opts opts.maxIterations nodes
  · intro hpos hlt
    obtain ⟨m, hm⟩ : ∃ m, opts.maxIterations = m + 1 :=
      ⟨opts.maxIterations - 1, by omega⟩
    rw [runForceSimulationSteps, hm, runForceSimulationAux, if_pos hlt]

/-- Witness for C9 at the default options and the empty node list: the
velocity measure of the stepped empty list is 0 < 1, so exactly one
iteration runs. -/
theorem runForceSimulation_terminates_witness :
    runForceSimulationSteps DEFAULT_OPTIONS [] = 1 :=
  (runForceSimulation_terminates DEFAULT_OPTIONS []).2
    (by norm_num [DEFAULT_OPTIONS])
    (by norm_num [simStep, totalVelocity])

/-! ## Proximity / landing detection (src/hooks/useProximityDetection.ts) -/

/-- A THREE.Vector3 position. -/
structure Vector3 where
  x : ℝ
  y : ℝ
  z : ℝ

/-- Vector3.distanceTo: the euclidean distance. -/
noncomputable def distanceTo (a b : Vector3) : ℝ :=
  Real.sqrt ((a.x - b.x) * (a.x - b.x) + (a.y - b.y) * (a.y - b.y) +
    (a.z - b.z) * (a.z - b.z))

/-- A registry entry {node, worldPosition, radius}. -/
structure PlanetEntry where
  node : RepoNode
  worldPosition : Vector3
  radius : ℝ

/-- Landing threshold (scaled for the 5x universe). -/
def LANDING_RANGE : ℝ := 1000

/-- Approach/detection threshold. -/
def APPROACH_RANGE : ℝ := 3000

/-- Camera-to-surface distance: distance to the body center minus the body
radius. -/
noncomputable def surfaceDistance (cameraPos : Vector3) (planet : PlanetEntry) : ℝ :=
  distanceTo cameraPos planet.worldPosition - planet.radius

/-- One round of the registry scan: starting from no candidate (nearest
distance infinity), a planet replaces the candidate when its surface
distance beats the current one and is inside the approach range. -/
noncomputable def nearestStep (cameraPos : Vector3)
    (acc : Option (PlanetEntry × ℝ)) (planet : PlanetEntry) :
    Option (PlanetEntry × ℝ) :=
  let distanceToSurface := surfaceDistance cameraPos planet
  match acc with
  | none =>
      if distanceToSurface < APPROACH_RANGE then some (planet, distanceToSurface)
      else none
  | some (q, dq) =>
      if distanceToSurface < dq ∧ distanceToSurface < APPROACH_RANGE then
        some (planet, distanceToSurface)
      else some (q, dq)

/-- The nearest-planet scan over the registry. -/
noncomputable def findNearest (cameraPos : Vector3) (registry : List PlanetEntry) :
    Option (PlanetEntry × ℝ) :=
  registry.foldl (nearestStep cameraPos) none

/-- The landing classification. -/
inductive LandingState where
  | flying
  | approaching
  | landed
deriving DecidableEq

/-- The published nearest-planet record {node, distance, worldPosition}. -/
structure NearestPlanetInfo where
  node : RepoNode
  distance : ℝ
  worldPosition : Vector3

/-- The detector-visible state: the landing state, the published nearest
planet, and the id remembered from the previous detection. -/
structure ProximityState where
  landingState : LandingState
  nearestPlanet : Option NearestPlanetInfo
  lastNearestId : Option String

/-- One sampling tick of useProximityDetection: inert unless in fly mode and
not landed; otherwise scan the registry; with a nearest planet, publish it
and classify as approaching exactly when the distance is inside the landing
range; with none, clear a previous publication and drop an approaching state
back to flying. -/
noncomputable def proximityTick (cameraMode : CameraMode) (st : ProximityState)
    (cameraPos : Vector3) (registry : List PlanetEntry) : ProximityState :=
  if cameraMode ≠ .fly ∨ st.landingState = .landed then st
  else
    match findNearest cameraPos registry with
    | some (planet, nearestDistance) =>
        let canLand := nearestDistance ≤ LANDING_RANGE
        { landingState := if canLand then .approaching else .flying
          nearestPlanet := some ⟨planet.node, nearestDistance, planet.worldPosition⟩
          lastNearestId := some planet.node.id }
    | none =>
        if st.lastNearestId ≠ none then
          { landingState := if st.landingState = .approaching then .flying
              else st.landingState
            nearestPlanet := none
            lastNearestId := none }
        else st

theorem nearestStep_none (cameraPos : Vector3) (q : PlanetEntry) :
    nearestStep cameraPos none q =
      if surfaceDistance cameraPos q < APPROACH_RANGE then
        some (q, surfaceDistance cameraPos q)
      else none := rfl

theorem nearestStep_some (cameraPos : Vector3) (q q1 : PlanetEntry) (d1 : ℝ) :
    nearestStep cameraPos (some (q1, d1)) q =
      if surfaceDistance cameraPos q < d1 ∧
          surfaceDistance cameraPos q < APPROACH_RANGE then
        some (q, surfaceDistance cameraPos q)
      else some (q1, d1) := rfl

/-- Specification of the registry fold: the scan returns the first planet of
minimal surface distance among those inside the approach range, or nothing
when no planet is in range. -/
theorem nearestFold_spec (cameraPos : Vector3) (ps : List PlanetEntry) :
    ∀ acc : Option (PlanetEntry × ℝ),
      (∀ q0 d0, acc = some (q0, d0) →
        d0 = surfaceDistance cameraPos q0 ∧ d0 < APPROACH_RANGE) →
      (ps.foldl (nearestStep cameraPos) acc = none →
        acc = none ∧ ∀ q ∈ ps, ¬ surfaceDistance cameraPos q < APPROACH_RANGE) ∧
      (∀ p d, ps.foldl (nearestStep cameraPos) acc = some (p, d) →
        d = surfaceDistance cameraPos p ∧ d < APPROACH_RANGE ∧
        (p ∈ ps ∨ acc = some (p, d)) ∧
        (∀ q ∈ ps, surfaceDistance cameraPos q < APPROACH_RANGE →
          d ≤ surfaceDistance cameraPos q) ∧
        (∀ q0 d0, acc = some (q0, d0) → d ≤ d0)) := by
  induction ps with
  | nil =>
      intro acc haccWF
      constructor
      · intro h
        exact ⟨h, by simp⟩
      · intro p d h
        rw [List.foldl_nil] at h
        obtain ⟨hd, hlt⟩ := haccWF p d h
        refine ⟨hd, hlt, Or.inr h, by simp, ?_⟩
        intro q0 d0 h0
        rw [h] at h0
        simp only [Option.some.injEq, Prod.mk.injEq] at h0
        exact le_of_eq h0.2
  | cons q rest ih =>
      intro acc haccWF
      rw [List.foldl_cons]
      rcases acc with _ | ⟨q1, d1⟩
      · -- no candidate yet
        by_cases hq : surfaceDistance cameraPos q < APPROACH_RANGE
        · -- the head becomes the candidate
          rw [nearestStep_none, if_pos hq]
          have hWF1 : ∀ q0 d0,
              (some (q, surfaceDistance cameraPos q) :
                Option (PlanetEntry × ℝ)) = some (q0, d0) →
              d0 = surfaceDistance cameraPos q0 ∧ d0 < APPROACH_RANGE := by
            intro q0 d0 h0
            simp only [Option.some.injEq, Prod.mk.injEq] at h0
            obtain ⟨rfl, rfl⟩ := h0
            exact ⟨rfl, hq⟩
          obtain ⟨ihnone, ihsome⟩ := ih (some (q, surfaceDistance cameraPos q)) hWF1
          constructor
          · intro h
            exact absurd (ihnone h).1 (by simp)
          · intro p d h
            obtain ⟨hd, hA, hmem, hmin, hle⟩ := ihsome p d h
            refine ⟨hd, hA, ?_, ?_, by simp⟩
            · rcases hmem with hmem | hmem
              · exact Or.inl (List.mem_cons_of_mem q hmem)
              · simp only [Option.some.injEq, Prod.mk.injEq] at hmem
                exact Or.inl (hmem.1 ▸ List.mem_cons_self q rest)
            · intro r hr hrA
              rcases List.mem_cons.mp hr with rfl | hr
              · exact hle r (surfaceDistance cameraPos r) rfl
              · exact hmin r hr hrA
        · -- the head is out of range, still no candidate
          rw [nearestStep_none, if_neg hq]
          obtain ⟨ihnone, ihsome⟩ := ih none (by simp)
          constructor
          · intro h
            refine ⟨rfl, ?_⟩
            intro r hr
            rcases List.mem_cons.mp hr with rfl | hr
            · exact hq
            · exact (ihnone h).2 r hr
          · intro p d h
            obtain ⟨hd, hA, hmem, hmin, _⟩ := ihsome p d h
            refine ⟨hd, hA, ?_, ?_, by simp⟩
            · rcases hmem with hmem | hmem
              · exact Or.inl (List.mem_cons_of_mem q hmem)
              · exact absurd hmem (by simp)
            · intro r hr hrA
              rcases List.mem_cons.mp hr with rfl | hr
              · exact absurd hrA hq
              · exact hmin r hr hrA
      · -- a candidate (q1, d1) is present
        obtain ⟨hd1, hA1⟩ := haccWF q1 d1 rfl
        by_cases hq : surfaceDistance cameraPos q < d1 ∧
            surfaceDistance cameraPos q < APPROACH_RANGE
        · -- the head replaces the candidate
          rw [nearestStep_some, if_pos hq]
          have hWF1 : ∀ q0 d0,
              (some (q, surfaceDistance cameraPos q) :
                Option (PlanetEntry × ℝ)) = some (q0, d0) →
              d0 = surfaceDistance cameraPos q0 ∧ d0 < APPROACH_RANGE := by
            intro q0 d0 h0
            simp only [Option.some.injEq, Prod.mk.injEq] at h0
            obtain ⟨rfl, rfl⟩ := h0
            exact ⟨rfl, hq.2⟩
          obtain ⟨ihnone, ihsome⟩ := ih (some (q, surfaceDistance cameraPos q)) hWF1
          constructor
          · intro h
            exact absurd (ihnone h).1 (by simp)
          · intro p d h
            obtain ⟨hd, hA, hmem, hmin, hle⟩ := ihsome p d h
            have hdq : d ≤ surfaceDistance cameraPos q :=
              hle q (surfaceDistance cameraPos q) rfl
            refine ⟨hd, hA, ?_, ?_, ?_⟩
            · rcases hmem with hmem | hmem
              · exact Or.inl (List.mem_cons_of_mem q hmem)
              · simp only [Option.some.injEq, Prod.mk.injEq] at hmem
                exact Or.inl (hmem.1 ▸ List.mem_cons_self q rest)
            · intro r hr hrA
              rcases List.mem_cons.mp hr with rfl | hr
              · exact hdq
              · exact hmin r hr hrA
            · intro q0 d0 h0
              simp only [Option.some.injEq, Prod.mk.injEq] at h0
              obtain ⟨rfl, rfl⟩ := h0
              linarith [hq.1]
        · -- the candidate survives the head
          rw [nearestStep_some, if_neg hq]
          obtain ⟨ihnone, ihsome⟩ := ih (some (q1, d1)) haccWF
          constructor
          · intro h
            exact absurd (ihnone h).1 (by simp)
          · intro p d h
            obtain ⟨hd, hA, hmem, hmin, hle⟩ := ihsome p d h
            have hdd1 : d ≤ d1 := hle q1 d1 rfl
            refine ⟨hd, hA, ?_, ?_, ?_⟩
            · rcases hmem with hmem | hmem
              · exact Or.inl (List.mem_cons_of_mem q hmem)
              · exact Or.inr hmem
            · intro r hr hrA
              rcases List.mem_cons.mp hr with rfl | hr
              · have hd1r : d1 ≤ surfaceDistance cameraPos r := by
                  rcases not_and_or.mp hq with h1 | h1
                  · exact le_of_not_lt h1
                  · exact absurd hrA h1
                linarith
              · exact hmin r hr hrA
            · intro q0 d0 h0
              simp only [Option.some.injEq, Prod.mk.injEq] at h0
              obtain ⟨rfl, rfl⟩ := h0
              exact hdd1

/-! Concrete proximity inputs for the counterexample and witness. -/

def demoPlanetFile : RepoNode := .file "/planet.ts" "planet.ts" "/planet.ts" "ts" 1000

/-- A registered body whose surface sits 2000 units from the origin: center
at x = 2100, radius 100. -/
def demoPlanet : PlanetEntry :=
  { node := demoPlanetFile, worldPosition := ⟨2100, 0, 0⟩, radius := 100 }

def originPos : Vector3 := ⟨0, 0, 0⟩

/-- Flying, nothing published, nothing remembered. -/
def flyingIdleProx : ProximityState :=
  { landingState := .flying, nearestPlanet := none, lastNearestId := none }

theorem demoPlanet_surfaceDistance :
    surfaceDistance originPos demoPlanet = 2000 := by
  have hsq : (originPos.x - demoPlanet.worldPosition.x) *
        (originPos.x - demoPlanet.worldPosition.x) +
      (originPos.y - demoPlanet.worldPosition.y) *
        (originPos.y - demoPlanet.worldPosition.y) +
      (originPos.z - demoPlanet.worldPosition.z) *
        (originPos.z - demoPlanet.worldPosition.z) = (2100 : ℝ) ^ 2 := by
    norm_num [originPos, demoPlanet]
  have hdist : distanceTo originPos demoPlanet.worldPosition = 2100 := by
    rw [distanceTo, hsq, Real.sqrt_sq (by norm_num : (0:ℝ) ≤ 2100)]
  rw [surfaceDistance, hdist]
  norm_num [demoPlanet]

theorem demoPlanet_findNearest :
    findNearest originPos [demoPlanet] = some (demoPlanet, 2000) := by
  rw [findNearest, List.foldl_cons, List.foldl_nil]
  show (if surfaceDistance originPos demoPlanet < APPROACH_RANGE then
      some (demoPlanet, surfaceDistance originPos demoPlanet) else none) = _
  rw [demoPlanet_surfaceDistance, if_pos (by norm_num [APPROACH_RANGE])]

/-- C6 counterexample: with a single body whose minimal surface distance
2000 is within the approach threshold 3000, the detector publishes the body
and its distance but sets the landing state to flying, not approaching
(approaching requires the strictly smaller landing threshold 1000). -/
theorem within_approach_threshold_but_not_approaching :
    surfaceDistance originPos demoPlanet < APPROACH_RANGE ∧
    (proximityTick .fly flyingIdleProx originPos [demoPlanet]).nearestPlanet =
      some ⟨demoPlanetFile, 2000, ⟨2100, 0, 0⟩⟩ ∧
    (proximityTick .fly flyingIdleProx originPos [demoPlanet]).landingState =
      .flying ∧
    (proximityTick .fly flyingIdleProx originPos [demoPlanet]).landingState ≠
      .approaching := by
  have htick : proximityTick .fly flyingIdleProx originPos [demoPlanet] =
      { landingState := .flying
        nearestPlanet := some ⟨demoPlanetFile, 2000, ⟨2100, 0, 0⟩⟩
        lastNearestId := some "/planet.ts" } := by
    rw [proximityTick, if_neg (by simp [flyingIdleProx]), demoPlanet_findNearest]
    have : ¬ ((2000 : ℝ) ≤ LANDING_RANGE) := by norm_num [LANDING_RANGE]
    simp [this, demoPlanet, demoPlanetFile, RepoNode.id]
  refine ⟨?_, ?_, ?_, ?_⟩
  · rw [demoPlanet_surfaceDistance]; norm_num [APPROACH_RANGE]
  · rw [htick]
  · rw [htick]
  · rw [htick]; simp

/-- C6 as amended: on a sampling tick in fly mode while not landed, the
detector computes each registered body's camera-to-surface distance as
distance-to-center minus the radius and selects the minimum among bodies
inside the approach threshold; when one exists it publishes the body and its
distance and sets the landing state to approaching exactly when the distance
is within the (strictly smaller) landing threshold, otherwise flying; when
no body is within the approach range it clears the publication (when one was
remembered) and drops an approaching state back to flying. -/
theorem proximity_tick_classifies_nearest (cameraPos : Vector3)
    (registry : List PlanetEntry) (st : ProximityState)
    (hst : st.landingState ≠ .landed) :
    (∀ p d, findNearest cameraPos registry = some (p, d) →
      p ∈ registry ∧ d = surfaceDistance cameraPos p ∧ d < APPROACH_RANGE ∧
      (∀ q ∈ registry, surfaceDistance cameraPos q < APPROACH_RANGE →
        d ≤ surfaceDistance cameraPos q) ∧
      proximityTick .fly st cameraPos registry =
        { landingState := if d ≤ LANDING_RANGE then .approaching else .flying
          nearestPlanet := some ⟨p.node, d, p.worldPosition⟩
          lastNearestId := some p.node.id }) ∧
    (findNearest cameraPos registry = none →
      (∀ q ∈ registry, ¬ surfaceDistance cameraPos q < APPROACH_RANGE) ∧
      (st.lastNearestId ≠ none →
        proximityTick .fly st cameraPos registry =
          { landingState := if st.landingState = .approaching then .flying
              else st.landingState
            nearestPlanet := none
            lastNearestId := none })) := by
  have hguard : ¬ ((CameraMode.fly ≠ CameraMode.fly) ∨ st.landingState = .landed) := by
    simp [hst]
  obtain ⟨hnone, hsome⟩ := nearestFold_spec cameraPos registry none (by simp)
  constructor
  · intro p d h
    obtain ⟨hd, hA, hmem, hmin, _⟩ := hsome p d h
    refine ⟨?_, hd, hA, hmin, ?_⟩
    · rcases hmem with hmem | hmem
      · exact hmem
      · exact absurd hmem (by simp)
    · rw [proximityTick, if_neg hguard, h]
  · intro h
    refine ⟨(hnone h).2, ?_⟩
    intro hlast
    rw [proximityTick, if_neg hguard, h, if_pos hlast]

/-- Witness for C6 as amended at the concrete single-body registry: the scan
finds the body at distance 2000 and the tick publishes it with landing state
flying (2000 exceeds the landing threshold). -/
theorem proximity_tick_classifies_nearest_witness :
    proximityTick .fly flyingIdleProx originPos [demoPlanet] =
      { landingState := .flying
        nearestPlanet := some ⟨demoPlanetFile, 2000, ⟨2100, 0, 0⟩⟩
        lastNearestId := some "/planet.ts" } := by
  have h := ((proximity_tick_classifies_nearest originPos [demoPlanet]
    flyingIdleProx (by simp [flyingIdleProx])).1 demoPlanet 2000
    demoPlanet_findNearest).2.2.2.2
  rw [h, if_neg (by norm_num [LANDING_RANGE])]
  simp [demoPlanet, demoPlanetFile, RepoNode.id]

end Gitlaxy
